import Mathlib

/-!
Shallow embedding of `src/recommendation.py` (PetChat): a Streamlit app that
collects a pet intake form, freezes it into session state, and then runs a
chat loop backed by a LangChain `LLMChain` with a `ConversationBufferMemory`.

Definitions mirror the source line by line:
* session state (`form_submitted`, `pet_info`, `messages`) — lines 66-71;
* breed computation from the dynamic dropdowns — lines 83-111;
* the submit handler with its validation — lines 120-133;
* the prompt template and conversation memory — lines 31-63;
* the chat-turn handler — lines 147-161;
* startup (API key check and LLM construction) — lines 19-28.

Streamlit re-executes the whole script on every interaction.  Only
`form_submitted`, `pet_info` and `messages` live in `st.session_state`
(lines 66-71) and persist across reruns; the `ConversationBufferMemory`
bound at line 46 is a plain module-level object that is rebound to a fresh
empty instance on every rerun (it is not in session state and is not
cached), so each chat turn's `chat_history` buffer starts empty and the
pair saved during one turn is discarded before the next interaction.
-/

namespace PetChat

/-- Role of a message in the displayed transcript (`msg["role"]`). -/
inductive Role
  | user
  | assistant
deriving DecidableEq, Repr

/-- One entry of `st.session_state.messages`: a dict with role and content. -/
structure Message where
  role : Role
  content : String
deriving DecidableEq, Repr

/-- `st.session_state` after the initialisation block (lines 66-71):
`form_submitted : bool`, `pet_info : str`, `messages : list`. -/
structure SessionState where
  form_submitted : Bool
  pet_info : String
  messages : List Message
deriving DecidableEq, Repr

/-- Session-state defaults created on first access (lines 66-71). -/
def initialSession : SessionState :=
  { form_submitted := false, pet_info := "", messages := [] }

/-- The widget values of one rendering of the intake form (lines 77-116):
`selected_breed` is the value of the species-specific breed dropdown, and
`typed_breed` the value of the free-text breed input (shown for the
"Other" escape and for Bird/Rabbit/Other species). -/
structure FormInput where
  name : String
  species : String
  selected_breed : String
  typed_breed : String
  age : String
  behavior : String
  diet : String
  exercise : String
deriving DecidableEq, Repr

/-- `species_options` (line 80). -/
def species_options : List String :=
  ["Please select...", "Dog", "Cat", "Bird", "Rabbit", "Other"]

/-- `dog_breeds` (lines 88-93). -/
def dog_breeds : List String :=
  ["Please select...",
   "Labrador Retriever", "German Shepherd", "Golden Retriever",
   "Bulldog", "Beagle", "Poodle", "Rottweiler",
   "Dachshund", "Siberian Husky", "Other"]

/-- `cat_breeds` (lines 100-104). -/
def cat_breeds : List String :=
  ["Please select...",
   "Persian Cat", "Maine Coon", "Siamese Cat",
   "British Shorthair", "Bengal Cat", "Sphynx", "Ragdoll", "Other"]

/-- The `breed` variable as computed by the dynamic dropdown logic
(lines 83-111): starts `""`; for Dog or Cat it is the selected dropdown
value unless that value is "Other", in which case it is the typed text;
for Bird/Rabbit/Other species it is the typed text; otherwise (species
still the placeholder) it stays `""`. -/
def computeBreed (species selected typed : String) : String :=
  if species = "Dog" then
    (if selected = "Other" then typed else selected)
  else if species = "Cat" then
    (if selected = "Other" then typed else selected)
  else if species = "Bird" ∨ species = "Rabbit" ∨ species = "Other" then
    typed
  else
    ""

/-- The synthetic assistant message appended on successful submission
(lines 129-132). -/
def syntheticAssistantMsg : Message :=
  { role := Role.assistant
    content := "Thanks! What recommendations do you want — diet, exercise, or wellness tips?" }

/-- The f-string serialising the profile into `st.session_state.pet_info`
(lines 125-128). -/
def serializePetInfo (fi : FormInput) (breed : String) : String :=
  "Name: " ++ fi.name ++ "\nSpecies: " ++ fi.species ++ "\nBreed: " ++ breed ++
  "\nAge: " ++ fi.age ++ "\nBehavior/Concerns: " ++ fi.behavior ++
  "\nDiet: " ++ fi.diet ++ "\nExercise: " ++ fi.exercise

/-- Result of the submit handler: the session state afterwards and whether
the `st.warning` branch fired. -/
structure SubmitOutcome where
  state : SessionState
  warned : Bool
deriving DecidableEq, Repr

/-- The `if submit:` handler (lines 120-133).  Rejects with a warning when
species is the placeholder, or the computed breed is empty (`not breed`) or
the placeholder, or age is empty (`not age`); otherwise sets
`form_submitted`, stores the serialised profile, and appends the one
synthetic assistant message. -/
def handleSubmit (fi : FormInput) (st : SessionState) : SubmitOutcome :=
  if fi.species = "Please select..." ∨
     computeBreed fi.species fi.selected_breed fi.typed_breed = "" ∨
     computeBreed fi.species fi.selected_breed fi.typed_breed = "Please select..." ∨
     fi.age = "" then
    { state := st, warned := true }
  else
    { state :=
        { form_submitted := true
          pet_info := serializePetInfo fi (computeBreed fi.species fi.selected_breed fi.typed_breed)
          messages := st.messages ++ [syntheticAssistantMsg] }
      warned := false }

/-- The `ConversationBufferMemory` (lines 46-51): the ordered list of
(human input, AI reply) pairs saved so far.  The object is rebound fresh
(empty) at line 46 on every script rerun, so within the program a turn
only ever sees the pairs saved earlier in the same rerun — none. -/
abbrev Memory := List (String × String)

/-- How one saved pair is rendered into the buffer string: the memory was
constructed with `human_prefix="Human"` and `ai_prefix="AI"`, and
`get_buffer_string` renders each message as `"{prefix}: {content}"`. -/
def pairLines (p : String × String) : String :=
  "Human: " ++ p.1 ++ "\nAI: " ++ p.2

/-- The memory buffer string injected into the `chat_history` slot: all
saved messages rendered and joined with newlines (empty memory gives ""). -/
def renderMemory : Memory → String
  | [] => ""
  | [p] => pairLines p
  | p :: q :: ps => pairLines p ++ "\n" ++ renderMemory (q :: ps)

/-- The part of `template` (lines 31-44) before the `{pet_info}` slot. -/
def tplHead : String :=
  "\nYou are a friendly and professional pet care expert. \nUse the information the user gave about their pet to provide tailored recommendations.\n\nPet Info:\n"

/-- The part of `template` between the `{pet_info}` and `{chat_history}` slots. -/
def tplMid1 : String := "\n\nConversation so far:\n"

/-- The part of `template` between the `{chat_history}` and `{human_input}` slots. -/
def tplMid2 : String := "\n\nUser's request: "

/-- The part of `template` after the `{human_input}` slot. -/
def tplTail : String := "\n\nGive a comprehensive bulleted list of recommendations.\n"

/-- The filled prompt sent to the model on one invocation: the fixed
template (lines 31-44) with its three slots `{pet_info}`, `{chat_history}`,
`{human_input}` substituted. -/
def promptFor (pet_info : String) (mem : Memory) (human_input : String) : String :=
  tplHead ++ pet_info ++ tplMid1 ++ renderMemory mem ++ tplMid2 ++ human_input ++ tplTail

/-- The model client: maps a filled prompt to generated text or a raised
error (an uncaught Python exception is modelled as `Except.error`). -/
abbrev ModelClient := String → Except String String

/-- A model client that always succeeds with `f` applied to the prompt. -/
def pureLLM (f : String → String) : ModelClient :=
  fun p => Except.ok (f p)

/-- Observable outcome of one chat-input interaction: the message list and
memory afterwards and, when the model invocation raised, the propagated
error. -/
structure TurnOutcome where
  messages : List Message
  memory : Memory
  error : Option String
deriving Repr

/-- The chat-input handler (lines 147-161).  The user message is appended
to `st.session_state.messages` first (line 148); then
`conversation_chain.invoke` fills the prompt from the frozen `pet_info`,
the memory buffer and the new input, and calls the LLM.  On success the
chain saves the (human, AI) pair into memory and the reply is appended as
an assistant message (line 159).  If the model raises, the exception
propagates: no assistant message is appended and the memory is not saved.
`mem` is the buffer of the memory object of the current rerun; in the
program it is always the fresh empty object bound at line 46. -/
def chatTurn (llm : ModelClient) (pet_info : String) (msgs : List Message)
    (mem : Memory) (input : String) : TurnOutcome :=
  let msgs1 := msgs ++ [{ role := Role.user, content := input }]
  match llm (promptFor pet_info mem input) with
  | Except.ok resp =>
      { messages := msgs1 ++ [{ role := Role.assistant, content := resp }]
        memory := mem ++ [(input, resp)]
        error := none }
  | Except.error e =>
      { messages := msgs1, memory := mem, error := some e }

/-- Outcome of a sequence of chat interactions: the persistent message
list afterwards and the first propagated model error, if any.  No memory
component: the per-rerun memory object does not survive an interaction. -/
structure ChatRunOutcome where
  messages : List Message
  error : Option String
deriving Repr

/-- A sequence of chat inputs, each handled by its own script rerun.
Every rerun re-executes line 46, rebuilding the conversation memory empty,
so every turn's buffer is `[]`; only `st.session_state.messages` carries
over.  Stops at the first propagated model error (that rerun aborts). -/
def runChat (llm : ModelClient) (pet_info : String) (msgs : List Message) :
    List String → ChatRunOutcome
  | [] => { messages := msgs, error := none }
  | i :: is =>
      let o := chatTurn llm pet_info msgs [] i
      match o.error with
      | some e => { messages := o.messages, error := some e }
      | none => runChat llm pet_info o.messages is

/-- The transcript produced by a sequence of chat inputs under the pure
model `f`: each input contributes its user message immediately followed by
the assistant reply computed from the prompt of that turn (whose
transcript slot is the empty buffer of that rerun's fresh memory). -/
def transcriptOf (f : String → String) (pet_info : String) :
    List String → List Message
  | [] => []
  | i :: is =>
      { role := Role.user, content := i } ::
      { role := Role.assistant, content := f (promptFor pet_info [] i) } ::
      transcriptOf f pet_info is

/-- The page rendered at the end of a script run: the intake form (the
`if not st.session_state.form_submitted` branch, lines 74-133) or the chat
view showing the saved profile and the message history (lines 136-144). -/
inductive View
  | formView
  | chatView (pet_info : String) (messages : List Message)
deriving DecidableEq, Repr

/-- What one rerun of the script displays for a given session state:
chat view iff `form_submitted` (line 74 / line 136). -/
def viewOf (st : SessionState) : View :=
  if st.form_submitted then View.chatView st.pet_info st.messages else View.formView

/-- The interaction that triggers one rerun of the script: a form submit
click, a chat input, or a plain re-render with no new input. -/
inductive Event
  | submit (fi : FormInput)
  | chat (input : String)
  | rerender

/-- Result of one script rerun: the session state afterwards (the only
state that persists across reruns), the view rendered, and a propagated
model error if one occurred. -/
structure StepOutcome where
  state : SessionState
  view : View
  error : Option String
deriving Repr

/-- One rerun of the script body (lines 74-161) against the current
session state.  Each rerun first re-executes line 46, rebinding the
conversation memory to a fresh empty object, and that object is discarded
when the rerun ends — only `st.session_state` survives.  When the form has
not been submitted only the form branch runs: a submit event goes through
`handleSubmit` (a successful submission calls `st.rerun()`, whose rerun
then renders the chat view).  When the form has been submitted only the
chat branch runs: a non-empty chat input (the walrus
`if user_input := st.chat_input(...)` is falsy on empty) goes through
`chatTurn` with the empty buffer; anything else just re-renders. -/
def appStep (llm : ModelClient) (st : SessionState) (ev : Event) : StepOutcome :=
  if st.form_submitted then
    match ev with
    | Event.chat input =>
        if input = "" then
          { state := st, view := viewOf st, error := none }
        else
          let o := chatTurn llm st.pet_info st.messages [] input
          let s := { st with messages := o.messages }
          { state := s, view := viewOf s, error := o.error }
    | _ => { state := st, view := viewOf st, error := none }
  else
    match ev with
    | Event.submit fi =>
        let o := handleSubmit fi st
        { state := o.state, view := viewOf o.state, error := none }
    | _ => { state := st, view := viewOf st, error := none }

/-- A session: the script rerun once per interaction; only the session
state is carried from one rerun to the next. -/
def runApp (llm : ModelClient) (st : SessionState) : List Event → SessionState
  | [] => st
  | ev :: evs => runApp llm (appStep llm st ev).state evs

/-- The user-facing message of the missing-credential error (line 22). -/
def apiKeyMissingMsg : String :=
  "The GOOGLE_API_KEY environment variable is not set. Please check your .env file."

/-- Startup outcome (lines 19-28): either the process halts at `st.stop()`
after displaying an error, or the model client is ready. -/
inductive StartupResult
  | halted (errMsg : String)
  | ready (llm : ModelClient)

/-- The startup block (lines 19-28): read `GOOGLE_API_KEY` from the
environment (`None` when unset); `if not api_key` — absent or empty — show
the error and stop; otherwise construct the LLM client, catching any
construction exception, showing `"Failed to initialize the LLM: ..."` and
stopping. -/
def initApp (apiKey : Option String) (construct : String → Except String ModelClient) :
    StartupResult :=
  match apiKey with
  | none => StartupResult.halted apiKeyMissingMsg
  | some k =>
      if k = "" then StartupResult.halted apiKeyMissingMsg
      else
        match construct k with
        | Except.ok llm => StartupResult.ready llm
        | Except.error e => StartupResult.halted ("Failed to initialize the LLM: " ++ e)

/-- The whole process: startup, then (only if startup did not halt) the
interactive session starting from the session-state defaults of lines
66-71.  A halt yields the error message and no interactive UI ever runs. -/
def runProgram (apiKey : Option String) (construct : String → Except String ModelClient)
    (evs : List Event) : Except String SessionState :=
  match initApp apiKey construct with
  | StartupResult.halted m => Except.error m
  | StartupResult.ready llm => Except.ok (runApp llm initialSession evs)

/-- Claim C1: for every form submission where species equals the placeholder
"Please select...", or the computed breed is empty or equals the
placeholder, or age is empty, the submission is rejected with a warning:
the session state (hence `form_submitted`, `pet_info` and the message
list) is left unchanged. -/
theorem invalid_submission_rejected (fi : FormInput) (st : SessionState)
    (h : fi.species = "Please select..." ∨
         computeBreed fi.species fi.selected_breed fi.typed_breed = "" ∨
         computeBreed fi.species fi.selected_breed fi.typed_breed = "Please select..." ∨
         fi.age = "") :
    handleSubmit fi st = { state := st, warned := true } ∧
    (handleSubmit fi st).state.form_submitted = st.form_submitted ∧
    (handleSubmit fi st).state.pet_info = st.pet_info ∧
    (handleSubmit fi st).state.messages = st.messages := by
  have he : handleSubmit fi st = { state := st, warned := true } := by
    unfold handleSubmit
    rw [if_pos h]
  exact ⟨he, by rw [he], by rw [he], by rw [he]⟩

/-- Witness for C1: a concrete submission with placeholder species is
rejected and leaves the fresh session untouched. -/
theorem invalid_submission_rejected_witness :
    handleSubmit
      { name := "", species := "Please select...", selected_breed := "",
        typed_breed := "", age := "2", behavior := "", diet := "", exercise := "" }
      initialSession =
      { state := initialSession, warned := true } :=
  (invalid_submission_rejected _ _ (Or.inl rfl)).1

/-- Claim C2: for every valid form submission (species concrete, computed
breed non-empty and non-placeholder, age non-empty), `form_submitted`
becomes true, `pet_info` is set to the newline-delimited serialization of
all seven fields, and exactly one synthetic assistant message is appended
to the message list. -/
theorem valid_submission_accepted (fi : FormInput) (st : SessionState)
    (h1 : fi.species ≠ "Please select...")
    (h2 : computeBreed fi.species fi.selected_breed fi.typed_breed ≠ "")
    (h3 : computeBreed fi.species fi.selected_breed fi.typed_breed ≠ "Please select...")
    (h4 : fi.age ≠ "") :
    handleSubmit fi st =
      { state :=
          { form_submitted := true
            pet_info := serializePetInfo fi (computeBreed fi.species fi.selected_breed fi.typed_breed)
            messages := st.messages ++ [syntheticAssistantMsg] }
        warned := false } := by
  unfold handleSubmit
  rw [if_neg]
  push_neg
  exact ⟨h1, h2, h3, h4⟩

/-- Witness for C2: a concrete valid submission is accepted with the
expected serialized profile and exactly one appended assistant message. -/
theorem valid_submission_accepted_witness :
    handleSubmit
      { name := "Rex", species := "Dog", selected_breed := "Beagle",
        typed_breed := "", age := "3", behavior := "", diet := "", exercise := "" }
      initialSession =
      { state :=
          { form_submitted := true
            pet_info := "Name: Rex\nSpecies: Dog\nBreed: Beagle\nAge: 3\nBehavior/Concerns: \nDiet: \nExercise: "
            messages := [syntheticAssistantMsg] }
        warned := false } := by
  have h := valid_submission_accepted
    { name := "Rex", species := "Dog", selected_breed := "Beagle",
      typed_breed := "", age := "3", behavior := "", diet := "", exercise := "" }
    initialSession (by decide) (by decide) (by decide) (by decide)
  simpa using h

/-- Scenario A of the spec: species "Dog", selected breed "Beagle", age "3". -/
def scenarioA : FormInput :=
  { name := "", species := "Dog", selected_breed := "Beagle",
    typed_breed := "", age := "3", behavior := "", diet := "", exercise := "" }

/-- Scenario B of the spec: species "Dog", selected breed "Other", typed
breed "Catahoula Leopard Dog", age "5". -/
def scenarioB : FormInput :=
  { name := "", species := "Dog", selected_breed := "Other",
    typed_breed := "Catahoula Leopard Dog", age := "5", behavior := "", diet := "", exercise := "" }

/-- Claim C6: scenario A (species "Dog", selected breed "Beagle", age "3")
is accepted and stores breed "Beagle"; scenario B (species "Dog", selected
breed "Other", typed breed "Catahoula Leopard Dog", age "5") is accepted
and stores the typed text as the breed. -/
theorem scenario_breed_storage :
    (handleSubmit scenarioA initialSession).warned = false ∧
    (handleSubmit scenarioA initialSession).state.form_submitted = true ∧
    computeBreed scenarioA.species scenarioA.selected_breed scenarioA.typed_breed = "Beagle" ∧
    (handleSubmit scenarioA initialSession).state.pet_info =
      "Name: \nSpecies: Dog\nBreed: Beagle\nAge: 3\nBehavior/Concerns: \nDiet: \nExercise: " ∧
    (handleSubmit scenarioB initialSession).warned = false ∧
    (handleSubmit scenarioB initialSession).state.form_submitted = true ∧
    computeBreed scenarioB.species scenarioB.selected_breed scenarioB.typed_breed =
      "Catahoula Leopard Dog" ∧
    (handleSubmit scenarioB initialSession).state.pet_info =
      "Name: \nSpecies: Dog\nBreed: Catahoula Leopard Dog\nAge: 5\nBehavior/Concerns: \nDiet: \nExercise: " := by
  decide

/-- Claim C10: for species "Dog" or "Cat", selecting "Other" with an empty
free-text breed yields the empty breed, and the submission is rejected. -/
theorem other_breed_blank_rejected (fi : FormInput) (st : SessionState)
    (hsp : fi.species = "Dog" ∨ fi.species = "Cat")
    (hsel : fi.selected_breed = "Other")
    (hty : fi.typed_breed = "") :
    computeBreed fi.species fi.selected_breed fi.typed_breed = "" ∧
    handleSubmit fi st = { state := st, warned := true } := by
  have hb : computeBreed fi.species fi.selected_breed fi.typed_breed = "" := by
    rcases hsp with h | h <;> simp [computeBreed, h, hsel, hty]
  refine ⟨hb, ?_⟩
  unfold handleSubmit
  rw [if_pos (Or.inr (Or.inl hb))]

/-- Witness for C10: a concrete Dog/Other submission with blank typed
breed computes the empty breed and is rejected. -/
theorem other_breed_blank_rejected_witness :
    computeBreed "Dog" "Other" "" = "" ∧
    handleSubmit
      { name := "", species := "Dog", selected_breed := "Other",
        typed_breed := "", age := "5", behavior := "", diet := "", exercise := "" }
      initialSession =
      { state := initialSession, warned := true } :=
  other_breed_blank_rejected
    { name := "", species := "Dog", selected_breed := "Other",
      typed_breed := "", age := "5", behavior := "", diet := "", exercise := "" }
    initialSession (Or.inl rfl) rfl rfl

/-- Claim C5: if the model invocation raises during a chat turn, the error
propagates uncaught (the outcome carries it), the user message has already
been appended, and no assistant message is appended; the memory is not
saved either. -/
theorem model_error_propagates (llm : ModelClient) (pet_info : String)
    (msgs : List Message) (mem : Memory) (input e : String)
    (h : llm (promptFor pet_info mem input) = Except.error e) :
    chatTurn llm pet_info msgs mem input =
      { messages := msgs ++ [{ role := Role.user, content := input }]
        memory := mem
        error := some e } := by
  unfold chatTurn
  rw [h]

/-- Witness for C5: a model client that always raises leaves exactly the
user message in the transcript and reports the error. -/
theorem model_error_propagates_witness :
    chatTurn (fun _ => Except.error "boom") "info" [] [] "hi" =
      { messages := [{ role := Role.user, content := "hi" }]
        memory := []
        error := some "boom" } :=
  model_error_propagates (fun _ => Except.error "boom") "info" [] [] "hi" "boom" rfl

/-- Claim C3: chat messages are appended in strict call order.  Under a
total model, a whole run of inputs produces the old messages followed by
the interleaved transcript (Nth user message, then Nth assistant reply,
then the (N+1)th pair, ...), with no error; and for any model client, a
single turn's message list extends the old one with the user message
first. -/
theorem chat_messages_in_order (f : String → String) (pet_info : String)
    (msgs : List Message) (inputs : List String) :
    ((runChat (pureLLM f) pet_info msgs inputs).messages =
        msgs ++ transcriptOf f pet_info inputs ∧
     (runChat (pureLLM f) pet_info msgs inputs).error = none) ∧
    (∀ (llm : ModelClient) (input : String), ∃ rest,
        (chatTurn llm pet_info msgs [] input).messages =
          msgs ++ { role := Role.user, content := input } :: rest) := by
  constructor
  · induction inputs generalizing msgs with
    | nil => exact ⟨by simp [runChat, transcriptOf], rfl⟩
    | cons i is ih =>
        have hr :
            runChat (pureLLM f) pet_info msgs (i :: is) =
              runChat (pureLLM f) pet_info
                ((msgs ++ [{ role := Role.user, content := i }]) ++
                  [{ role := Role.assistant, content := f (promptFor pet_info [] i) }]) is := rfl
        rw [hr]
        obtain ⟨hm, he⟩ := ih _
        refine ⟨?_, he⟩
        rw [hm]
        simp [transcriptOf, List.append_assoc]
  · intro llm input
    cases hl : llm (promptFor pet_info [] input) with
    | ok r =>
        exact ⟨[{ role := Role.assistant, content := r }],
          by simp [chatTurn, hl]⟩
    | error e =>
        exact ⟨[], by simp [chatTurn, hl]⟩

/-- Claim C4 (refuted by evaluation of the embedding): the spec claims
every prompt after the first contains the full prior transcript, kept by
the conversation memory across turns.  The program rebuilds the memory
object empty on every script rerun (line 46 re-executes; the object is not
in session state), so the transcript slot of every invocation — including
every turn after the first — is the empty buffer.  With an echo model
(reply = the exact prompt received), two consecutive turns from a
submitted state show: the second turn's prompt is built from the empty
buffer; the pair the first turn saved into its own rerun's memory is
gone; and the actual second prompt differs from the prompt the
full-history claim calls for. -/
theorem second_turn_history_empty :
    (runApp (pureLLM (fun p => p))
        { form_submitted := true, pet_info := "PI", messages := [] }
        [Event.chat "q1", Event.chat "q2"]).messages =
      [{ role := Role.user, content := "q1" },
       { role := Role.assistant, content := promptFor "PI" [] "q1" },
       { role := Role.user, content := "q2" },
       { role := Role.assistant, content := promptFor "PI" [] "q2" }] ∧
    renderMemory [] = "" ∧
    (chatTurn (pureLLM (fun p => p)) "PI" [] [] "q1").memory =
      [("q1", promptFor "PI" [] "q1")] ∧
    promptFor "PI" [] "q2" ≠
      tplHead ++ "PI" ++ tplMid1 ++
        pairLines ("q1", promptFor "PI" [] "q1") ++ tplMid2 ++ "q2" ++ tplTail := by
  set_option maxRecDepth 4000 in
  refine ⟨rfl, rfl, rfl, ?_⟩
  set_option maxRecDepth 4000 in
  decide

/-- A single chat turn only ever extends the message list. -/
theorem chatTurn_messages_extend (llm : ModelClient) (pet_info : String)
    (msgs : List Message) (mem : Memory) (input : String) :
    ∃ tail, (chatTurn llm pet_info msgs mem input).messages = msgs ++ tail := by
  cases hl : llm (promptFor pet_info mem input) with
  | ok r =>
      exact ⟨[{ role := Role.user, content := input },
              { role := Role.assistant, content := r }], by simp [chatTurn, hl]⟩
  | error e =>
      exact ⟨[{ role := Role.user, content := input }], by simp [chatTurn, hl]⟩

/-- Once the form is submitted, one script rerun keeps `form_submitted`
true, leaves `pet_info` untouched, and only appends to the messages. -/
theorem appStep_preserves_submitted (llm : ModelClient) (st : SessionState) (ev : Event)
    (h : st.form_submitted = true) :
    (appStep llm st ev).state.form_submitted = true ∧
    (appStep llm st ev).state.pet_info = st.pet_info ∧
    ∃ tail, (appStep llm st ev).state.messages = st.messages ++ tail := by
  cases ev with
  | submit fi => exact ⟨by simp [appStep, h], by simp [appStep, h], ⟨[], by simp [appStep, h]⟩⟩
  | rerender => exact ⟨by simp [appStep, h], by simp [appStep, h], ⟨[], by simp [appStep, h]⟩⟩
  | chat input =>
      by_cases hi : input = ""
      · exact ⟨by simp [appStep, h, hi], by simp [appStep, h, hi], ⟨[], by simp [appStep, h, hi]⟩⟩
      · obtain ⟨tail, ht⟩ :=
          chatTurn_messages_extend llm st.pet_info st.messages [] input
        exact ⟨by simp [appStep, h, hi], by simp [appStep, h, hi],
               ⟨tail, by simp [appStep, h, hi, ht]⟩⟩

/-- Once the form is submitted, a script rerun never renders the form view. -/
theorem appStep_no_form_view (llm : ModelClient) (st : SessionState) (ev : Event)
    (h : st.form_submitted = true) :
    (appStep llm st ev).view ≠ View.formView := by
  cases ev with
  | submit fi => simp [appStep, h, viewOf]
  | rerender => simp [appStep, h, viewOf]
  | chat input =>
      by_cases hi : input = ""
      · simp [appStep, h, hi, viewOf]
      · simp [appStep, h, hi, viewOf]

/-- Over a whole run of interactions, submission is preserved, `pet_info`
is never modified, and the messages only grow. -/
theorem runApp_preserves_submitted (llm : ModelClient) (evs : List Event) :
    ∀ (st : SessionState), st.form_submitted = true →
      (runApp llm st evs).form_submitted = true ∧
      (runApp llm st evs).pet_info = st.pet_info ∧
      ∃ tail, (runApp llm st evs).messages = st.messages ++ tail := by
  induction evs with
  | nil => intro st h; exact ⟨h, rfl, ⟨[], by simp [runApp]⟩⟩
  | cons ev evs ih =>
      intro st h
      obtain ⟨h1, h2, t1, h3⟩ := appStep_preserves_submitted llm st ev h
      obtain ⟨g1, g2, t2, g3⟩ := ih _ h1
      refine ⟨g1, ?_, ⟨t1 ++ t2, ?_⟩⟩
      · show (runApp llm (appStep llm st ev).state evs).pet_info = _
        rw [g2, h2]
      · show (runApp llm (appStep llm st ev).state evs).messages = _
        rw [g3, h3, List.append_assoc]

/-- Claim C7: once `form_submitted` is true it never becomes false again,
`pet_info` is never modified, every later step only appends to the message
list, and no rerun at any later point of the session renders the intake
form. -/
theorem submitted_is_permanent (llm : ModelClient) (st : SessionState) (evs : List Event)
    (h : st.form_submitted = true) :
    ((runApp llm st evs).form_submitted = true ∧
     (runApp llm st evs).pet_info = st.pet_info ∧
     ∃ tail, (runApp llm st evs).messages = st.messages ++ tail) ∧
    (∀ (pre : List Event) (ev : Event),
        (appStep llm (runApp llm st pre) ev).view ≠ View.formView) := by
  refine ⟨runApp_preserves_submitted llm evs st h, ?_⟩
  intro pre ev
  exact appStep_no_form_view llm _ ev (runApp_preserves_submitted llm pre st h).1

/-- Witness for C7: from a concrete submitted state, a rerun keeps the
submission flag and does not render the form. -/
theorem submitted_is_permanent_witness :
    (runApp (pureLLM (fun _ => "r"))
        { form_submitted := true, pet_info := "PI", messages := [] }
        [Event.rerender]).form_submitted = true ∧
    (appStep (pureLLM (fun _ => "r"))
        { form_submitted := true, pet_info := "PI", messages := [] }
        Event.rerender).view ≠ View.formView := by
  have h := submitted_is_permanent (pureLLM (fun _ => "r"))
    { form_submitted := true, pet_info := "PI", messages := [] }
    [Event.rerender] rfl
  exact ⟨h.1.1, h.2 [] Event.rerender⟩

/-- Claim C9: re-rendering the chat view with unchanged session state is
idempotent: the rerun leaves the whole app state unchanged, raises no
error, and displays exactly the saved profile and the saved message
sequence; a second rerun displays the same view. -/
theorem rerender_idempotent (llm : ModelClient) (st : SessionState)
    (h : st.form_submitted = true) :
    appStep llm st Event.rerender =
      { state := st
        view := View.chatView st.pet_info st.messages
        error := none } ∧
    (appStep llm (appStep llm st Event.rerender).state Event.rerender).view =
      (appStep llm st Event.rerender).view := by
  constructor
  · simp [appStep, h, viewOf]
  · simp [appStep, h, viewOf]

/-- Witness for C9: re-rendering a concrete submitted state changes
nothing and shows the saved transcript. -/
theorem rerender_idempotent_witness :
    appStep (pureLLM (fun _ => "r"))
      { form_submitted := true, pet_info := "PI", messages := [] }
      Event.rerender =
      { state := { form_submitted := true, pet_info := "PI", messages := [] }
        view := View.chatView "PI" []
        error := none } :=
  (rerender_idempotent (pureLLM (fun _ => "r"))
    { form_submitted := true, pet_info := "PI", messages := [] }
    rfl).1

/-- Claim C8: if the credential is absent (or empty, which Python
truthiness also rejects), the process halts at startup with the missing-key
error and no interactive session ever runs; if the model-client
construction fails, the caught error is surfaced and the process halts
likewise. -/
theorem startup_failure_halts (apiKey : Option String)
    (construct : String → Except String ModelClient) (evs : List Event) :
    ((apiKey = none ∨ apiKey = some "") →
        runProgram apiKey construct evs = Except.error apiKeyMissingMsg) ∧
    (∀ k e, apiKey = some k → k ≠ "" → construct k = Except.error e →
        runProgram apiKey construct evs =
          Except.error ("Failed to initialize the LLM: " ++ e)) := by
  constructor
  · rintro (rfl | rfl)
    · rfl
    · rfl
  · rintro k e rfl hk hc
    simp [runProgram, initApp, hk, hc]

/-- Witness for C8: a missing key halts with the missing-key message; a
failing constructor halts with the surfaced construction error. -/
theorem startup_failure_halts_witness :
    runProgram none (fun _ => Except.error "boom") [] = Except.error apiKeyMissingMsg ∧
    runProgram (some "key") (fun _ => Except.error "boom") [] =
      Except.error ("Failed to initialize the LLM: " ++ "boom") :=
  ⟨(startup_failure_halts none (fun _ => Except.error "boom") []).1 (Or.inl rfl),
   (startup_failure_halts (some "key") (fun _ => Except.error "boom") []).2
     "key" "boom" rfl (by decide) rfl⟩

end PetChat
